import Mathlib

/-!
Verification development for the Code Dog animation controller
(repository MohinVinayak/Code-Dog, file src/extension.ts, function activate).

The controller maps inbound editor/task/debug/diagnostic signals to
animation directives for a webview renderer, mediated by several timers:
temporary-override expiry timers (playTemp), a success-hold timer, a
death-recovery timer, a quick-idle watchdog, a delayed diagnostic-bark
timer and a periodic idle ticker.

The embedding below is a direct translation of the TypeScript source:
  - machine time (Date.now()) is an explicit Nat argument in milliseconds;
  - the JavaScript timer queue is an explicit list of pending timers, each
    carrying the unique id returned by setTimeout, its fire time and the
    translated body of its callback closure; clearTimeout removes the
    timer with the given id from the queue, and a timer can only fire
    while it is still in the queue and its fire time has been reached;
  - the mutable closure variables of activate become the fields of
    ControllerState; the webview panel is modelled by the flag panelAlive
    and the loaded animation catalog by an optional map from animation
    name to its number of frames (only emptiness of the frame list is
    ever observed by the control logic);
  - a directive is the postMessage of type set sent by setAnimation; we
    record the stream of directives by the animation names they carry
    (frames, interval and loop are pure functions of the name).
-/

/-- The nine animation names of the extension (type AnimName in the source). -/
inductive AnimName
  | bark | bite | blink | death | idleBlink | run | sniff | tracking | walk
deriving DecidableEq, Repr

/-- Static per-animation playback configuration (type AnimConfig in the source). -/
structure AnimConfig where
  intervalMs : Nat
  loop : Bool
deriving DecidableEq, Repr

/-- The animConfig table of the source. -/
def animConfig : AnimName → AnimConfig
  | .bark => ⟨100, true⟩
  | .bite => ⟨80, false⟩
  | .blink => ⟨110, false⟩
  | .death => ⟨160, false⟩
  | .idleBlink => ⟨130, true⟩
  | .run => ⟨90, true⟩
  | .sniff => ⟨100, true⟩
  | .tracking => ⟨100, true⟩
  | .walk => ⟨100, true⟩

/-- The configuration values consumed by the control logic (interface
DogConfig in the source; size and position are presentation-only and
never inspected by the controller, so they are omitted). -/
structure DogConfig where
  idleTimeout : Nat
  enableBark : Bool
  barkDelay : Nat
  deathCooldown : Nat
deriving DecidableEq, Repr

/-- IDLE_THRESHOLD_MS of the source. -/
def IDLE_THRESHOLD_MS : Nat := 300

/-- SUCCESS_RUN_DURATION_MS of the source. -/
def SUCCESS_RUN_DURATION_MS : Nat := 10000

/-- MAX_IDLE_BLINKS of the source. -/
def MAX_IDLE_BLINKS : Nat := 3

/-- The default configuration object of the source (before loadConfig). -/
def defaultConfig : DogConfig :=
  { idleTimeout := 10000, enableBark := true, barkDelay := 5000, deathCooldown := 5000 }

/-- The onDone completion callback passed to playTemp. The only call site
that passes one is the idle-ticker Blink, whose callback re-issues
IdleBlink when neither the death lock nor the success hold is active. -/
inductive TempCallback
  | blinkIdle
deriving DecidableEq, Repr

/-- The translated body of each setTimeout callback closure of the source. -/
inductive TimerKind
  | tempExpiry (onDone : Option TempCallback)
  | successExpiry
  | deathRecovery
  | quickIdle
  | barkFire
deriving DecidableEq, Repr

/-- One pending entry of the host timer queue: the handle returned by
setTimeout, the scheduled fire time, and the callback body. -/
structure Timer where
  id : Nat
  fireAt : Nat
  kind : TimerKind
deriving DecidableEq, Repr

/-- The mutable closure state of activate, plus the explicit timer queue. -/
structure ControllerState where
  panelAlive : Bool
  animations : Option (AnimName → Nat)
  lastTypeTime : Nat
  tempHoldUntil : Nat
  deathLocked : Bool
  typingActive : Bool
  idleBlinkCount : Nat
  currentAnim : Option AnimName
  nextBarkAllowedAt : Nat
  diagBarkTimeout : Option Nat
  successRunTimeout : Option Nat
  quickIdleTimeout : Option Nat
  timers : List Timer
  nextTimerId : Nat

/-- Environment values read back from the host while a handler runs:
whether an active text editor exists, whether its current diagnostics
contain an error or a warning, and the outcome of the Math.random()
< 0.3 draw of the idle ticker. -/
structure Env where
  hasEditor : Bool
  hasErr : Bool
  hasWarn : Bool
  blinkRand : Bool
deriving DecidableEq, Repr

/-- clearTimeout: remove the pending timer with the given handle. -/
def clearTimer (st : ControllerState) (tid : Nat) : ControllerState :=
  { st with timers := st.timers.filter (fun t => t.id != tid) }

/-- setTimeout: append a pending timer and return its fresh handle. -/
def scheduleTimer (st : ControllerState) (fireAt : Nat) (kind : TimerKind) :
    ControllerState × Nat :=
  ({ st with
      timers := st.timers ++ [{ id := st.nextTimerId, fireAt := fireAt, kind := kind }],
      nextTimerId := st.nextTimerId + 1 },
   st.nextTimerId)

/-- The guard chain of setAnimation: a directive is posted unless the
panel is gone, the animations are not loaded, the transition is an
unforced repeat of the current animation, or the resolved frame list is
empty. -/
def animDirective (st : ControllerState) (name : AnimName) (force : Bool) : Bool :=
  match st.animations with
  | none => false
  | some frames =>
    if st.panelAlive = false then false
    else if force = false ∧ st.currentAnim = some name then false
    else if frames name = 0 then false
    else true

/-- setAnimation of the source: post a set directive and record the new
current animation, or do nothing when a guard fails. -/
def setAnimation (st : ControllerState) (name : AnimName) (force : Bool) :
    ControllerState × List AnimName :=
  if animDirective st name force then ({ st with currentAnim := some name }, [name])
  else (st, [])

/-- isTempActive of the source: a temporary override is active while the
current time is strictly before tempHoldUntil. -/
def isTempActive (now : Nat) (st : ControllerState) : Bool :=
  decide (now < st.tempHoldUntil)

/-- The baseline animation choice inside applyBaseline: Walk if the last
edit was at most IDLE_THRESHOLD_MS milliseconds ago, else IdleBlink. -/
def baselineAnim (now : Nat) (st : ControllerState) : AnimName :=
  if now - st.lastTypeTime > IDLE_THRESHOLD_MS then .idleBlink else .walk

/-- applyBaseline of the source: bail out while the success hold is
armed, otherwise issue the baseline animation (unforced). Note that the
source performs no deathLocked check here. -/
def applyBaseline (now : Nat) (st : ControllerState) : ControllerState × List AnimName :=
  if st.successRunTimeout.isSome then (st, [])
  else setAnimation st (baselineAnim now st) false

/-- playTemp of the source: set tempHoldUntil, force the animation, and
schedule an anonymous expiry timer after ms milliseconds; the handle of
that timer is not stored anywhere. -/
def playTemp (now : Nat) (st : ControllerState) (name : AnimName) (ms : Nat)
    (onDone : Option TempCallback) : ControllerState × List AnimName :=
  let st1 := { st with tempHoldUntil := now + ms }
  let p := setAnimation st1 name true
  let q := scheduleTimer p.1 (now + ms) (.tempExpiry onDone)
  (q.1, p.2)

/-- The cancel-and-null idiom for the diagnostic bark handle. -/
def cancelDiagBark (st : ControllerState) : ControllerState :=
  match st.diagBarkTimeout with
  | some i => { clearTimer st i with diagBarkTimeout := none }
  | none => st

/-- The cancel-and-null idiom for the success hold handle. -/
def cancelSuccessRun (st : ControllerState) : ControllerState :=
  match st.successRunTimeout with
  | some i => { clearTimer st i with successRunTimeout := none }
  | none => st

/-- The cancel-and-null idiom for the quick idle watchdog handle. -/
def cancelQuickIdle (st : ControllerState) : ControllerState :=
  match st.quickIdleTimeout with
  | some i => { clearTimer st i with quickIdleTimeout := none }
  | none => st

/-- checkDiagnostics of the source. The diagnostics of the active editor
are read from the environment. -/
def checkDiagnostics (cfg : DogConfig) (env : Env) (now : Nat) (st : ControllerState) :
    ControllerState × List AnimName :=
  if !st.panelAlive || st.animations.isNone || st.deathLocked
      || st.successRunTimeout.isSome || !cfg.enableBark then (st, [])
  else if !env.hasEditor then (st, [])
  else
    let hasAny := env.hasErr || env.hasWarn
    if !hasAny then
      let st1 := cancelDiagBark st
      let st2 := { st1 with nextBarkAllowedAt := 0 }
      if !isTempActive now st2 && !st2.deathLocked then applyBaseline now st2
      else (st2, [])
    else
      if st.diagBarkTimeout.isNone && decide (st.nextBarkAllowedAt ≤ now) then
        let q := scheduleTimer st (now + cfg.barkDelay) .barkFire
        ({ q.1 with diagBarkTimeout := some q.2 }, [])
      else (st, [])

/-- The body of each timer callback, run at fire time against the state
current at that moment (the fired timer has already left the queue). -/
def runTimerKind (_cfg : DogConfig) (env : Env) (now : Nat) (st : ControllerState) :
    TimerKind → ControllerState × List AnimName
  | .tempExpiry onDone =>
    if decide (st.tempHoldUntil ≤ now) then
      let st1 := { st with tempHoldUntil := 0 }
      match onDone with
      | some .blinkIdle =>
        if !st1.deathLocked && st1.successRunTimeout.isNone then
          setAnimation st1 .idleBlink false
        else (st1, [])
      | none => applyBaseline now st1
    else (st, [])
  | .successExpiry =>
    let st1 := { st with successRunTimeout := none }
    if !isTempActive now st1 && !st1.deathLocked then applyBaseline now st1
    else (st1, [])
  | .deathRecovery =>
    let st1 := { st with deathLocked := false }
    if !isTempActive now st1 then applyBaseline now st1
    else (st1, [])
  | .quickIdle =>
    if decide (200 ≤ now - st.lastTypeTime) && !isTempActive now st
        && !st.deathLocked && st.successRunTimeout.isNone then
      let p := setAnimation st .idleBlink false
      ({ p.1 with typingActive := false }, p.2)
    else (st, [])
  | .barkFire =>
    let st1 := { st with diagBarkTimeout := none }
    if !st1.panelAlive || st1.animations.isNone || st1.deathLocked then (st1, [])
    else if !env.hasEditor then (st1, [])
    else if env.hasErr || env.hasWarn then
      let p := playTemp now st1 .bark 1200 none
      ({ p.1 with nextBarkAllowedAt := now + 30000 }, p.2)
    else (st1, [])

/-- A pending timer fires: it must still be in the queue and be due; it
is removed from the queue and its callback body runs. -/
def fireTimer (cfg : DogConfig) (env : Env) (now : Nat) (st : ControllerState)
    (tid : Nat) : ControllerState × List AnimName :=
  match st.timers.find? (fun t => t.id == tid) with
  | none => (st, [])
  | some t =>
    if decide (t.fireAt ≤ now) then runTimerKind cfg env now (clearTimer st tid) t.kind
    else (st, [])

/-- The inbound events of the controller: the wired host signals, the
periodic idle ticker, the firing of a pending one-shot timer, and the
disposal of the webview panel. -/
inductive Event
  | editChanged (largeDeletion : Bool)
  | saved
  | editorClosed
  | activeEditorChanged
  | diagnosticsChanged
  | taskStarted
  | taskEnded (exitZero : Bool)
  | debugStarted
  | debugEnded
  | idleTick
  | timerFires (tid : Nat)
  | panelDisposed

/-- One event-handling turn of the controller, translated handler by
handler from wireEvents, the task and debug subscriptions, the
diagnostics subscription, panel.onDidDispose, and the timer callbacks.
Returns the successor state and the directives posted during the turn. -/
def step (cfg : DogConfig) (env : Env) (now : Nat) (st : ControllerState) :
    Event → ControllerState × List AnimName
  | .editChanged largeDeletion =>
    let st1 := { st with lastTypeTime := now, typingActive := true, idleBlinkCount := 0 }
    if st1.deathLocked then (st1, [])
    else if st1.successRunTimeout.isSome then (st1, [])
    else
      let p := if isTempActive now st1 then (st1, []) else setAnimation st1 .walk false
      let st2 :=
        match p.1.quickIdleTimeout with
        | some qid => clearTimer p.1 qid
        | none => p.1
      let q := scheduleTimer st2 (now + 200) .quickIdle
      let st3 := { q.1 with quickIdleTimeout := some q.2 }
      if largeDeletion then
        let r := playTemp now st3 .bite 600 none
        (r.1, p.2 ++ r.2)
      else (st3, p.2)
  | .saved =>
    if !st.deathLocked && st.successRunTimeout.isNone then playTemp now st .sniff 900 none
    else (st, [])
  | .editorClosed =>
    if !st.deathLocked && st.successRunTimeout.isNone then playTemp now st .tracking 900 none
    else (st, [])
  | .activeEditorChanged =>
    let p :=
      if !st.deathLocked && st.successRunTimeout.isNone then playTemp now st .tracking 700 none
      else (st, [])
    let q := checkDiagnostics cfg env now p.1
    (q.1, p.2 ++ q.2)
  | .diagnosticsChanged =>
    if cfg.enableBark then checkDiagnostics cfg env now st else (st, [])
  | .taskStarted =>
    if !st.deathLocked then
      let p := setAnimation st .run false
      (cancelSuccessRun p.1, p.2)
    else (st, [])
  | .taskEnded exitZero =>
    if !exitZero then
      let p := setAnimation st .death false
      let st2 := { p.1 with deathLocked := true }
      let st3 := cancelSuccessRun st2
      let q := scheduleTimer st3 (now + cfg.deathCooldown) .deathRecovery
      let st4 := cancelDiagBark q.1
      (st4, p.2)
    else
      let q := scheduleTimer st (now + SUCCESS_RUN_DURATION_MS) .successExpiry
      let st2 := { q.1 with successRunTimeout := some q.2 }
      setAnimation st2 .run false
  | .debugStarted =>
    if !st.deathLocked then
      let p := setAnimation st .run false
      (cancelSuccessRun p.1, p.2)
    else (st, [])
  | .debugEnded =>
    if !st.deathLocked && st.successRunTimeout.isNone then applyBaseline now st
    else (st, [])
  | .idleTick =>
    if decide (cfg.idleTimeout ≤ now - st.lastTypeTime) && !isTempActive now st
        && !st.deathLocked && st.successRunTimeout.isNone then
      if decide (st.idleBlinkCount < MAX_IDLE_BLINKS) && env.blinkRand then
        let st1 := { st with idleBlinkCount := st.idleBlinkCount + 1 }
        playTemp now st1 .blink 400 (some .blinkIdle)
      else if st.currentAnim ≠ some AnimName.idleBlink then setAnimation st .idleBlink false
      else (st, [])
    else (st, [])
  | .timerFires tid => fireTimer cfg env now st tid
  | .panelDisposed =>
    let st1 := { st with panelAlive := false }
    let st2 := cancelDiagBark st1
    let st3 := cancelSuccessRun st2
    (cancelQuickIdle st3, [])

/-- The state right after the codedog.start command created the panel,
loaded the animation catalog, and issued the initial IdleBlink. -/
def activate (now : Nat) (frames : AnimName → Nat) : ControllerState × List AnimName :=
  let st : ControllerState :=
    { panelAlive := true
      animations := some frames
      lastTypeTime := now
      tempHoldUntil := 0
      deathLocked := false
      typingActive := false
      idleBlinkCount := 0
      currentAnim := none
      nextBarkAllowedAt := 0
      diagBarkTimeout := none
      successRunTimeout := none
      quickIdleTimeout := none
      timers := []
      nextTimerId := 0 }
  setAnimation st .idleBlink false

/-- A catalog in which every animation resolved to one frame. -/
def allFrames : AnimName → Nat := fun _ => 1

/-- An environment with an active editor, clean diagnostics and a
negative random draw. -/
def env0 : Env := { hasEditor := true, hasErr := false, hasWarn := false, blinkRand := false }

/-- An environment with an active editor whose diagnostics contain an error. -/
def envErr : Env := { hasEditor := true, hasErr := true, hasWarn := false, blinkRand := false }

/-! ### Characterization lemmas for the elementary operations -/

/-- setAnimation changes at most currentAnim. -/
@[simp] theorem setAnimation_fst_eq (st : ControllerState) (name : AnimName) (force : Bool) :
    (setAnimation st name force).1
      = { st with currentAnim :=
            if animDirective st name force then some name else st.currentAnim } := by
  unfold setAnimation
  split <;> simp_all

/-- setAnimation posts exactly one directive when its guards pass, none otherwise. -/
@[simp] theorem setAnimation_snd_eq (st : ControllerState) (name : AnimName) (force : Bool) :
    (setAnimation st name force).2 = if animDirective st name force then [name] else [] := by
  unfold setAnimation
  split <;> simp_all

/-- The state after playTemp: hold set, animation possibly redirected,
one anonymous expiry timer appended, handle counter advanced. -/
@[simp] theorem playTemp_fst_eq (now : Nat) (st : ControllerState) (name : AnimName)
    (ms : Nat) (onDone : Option TempCallback) :
    (playTemp now st name ms onDone).1
      = { st with
          tempHoldUntil := now + ms
          currentAnim :=
            if animDirective { st with tempHoldUntil := now + ms } name true then some name
            else st.currentAnim
          timers := st.timers
            ++ [{ id := st.nextTimerId, fireAt := now + ms, kind := .tempExpiry onDone }]
          nextTimerId := st.nextTimerId + 1 } := by
  unfold playTemp scheduleTimer
  simp

/-- The directives posted by playTemp. -/
@[simp] theorem playTemp_snd_eq (now : Nat) (st : ControllerState) (name : AnimName)
    (ms : Nat) (onDone : Option TempCallback) :
    (playTemp now st name ms onDone).2
      = if animDirective { st with tempHoldUntil := now + ms } name true then [name]
        else [] := by
  unfold playTemp scheduleTimer
  simp

/-- cancelDiagBark nulls the handle and filters the queue. -/
theorem cancelDiagBark_eq (st : ControllerState) :
    cancelDiagBark st
      = { st with
          diagBarkTimeout := none
          timers := (match st.diagBarkTimeout with
            | some i => st.timers.filter (fun t => t.id != i)
            | none => st.timers) } := by
  rcases st with ⟨p, a, l, th, d, ty, ib, c, nb, db, sr, qi, tm, ni⟩
  cases db <;> rfl

/-- cancelSuccessRun nulls the handle and filters the queue. -/
theorem cancelSuccessRun_eq (st : ControllerState) :
    cancelSuccessRun st
      = { st with
          successRunTimeout := none
          timers := (match st.successRunTimeout with
            | some i => st.timers.filter (fun t => t.id != i)
            | none => st.timers) } := by
  rcases st with ⟨p, a, l, th, d, ty, ib, c, nb, db, sr, qi, tm, ni⟩
  cases sr <;> rfl

/-- cancelQuickIdle nulls the handle and filters the queue. -/
theorem cancelQuickIdle_eq (st : ControllerState) :
    cancelQuickIdle st
      = { st with
          quickIdleTimeout := none
          timers := (match st.quickIdleTimeout with
            | some i => st.timers.filter (fun t => t.id != i)
            | none => st.timers) } := by
  rcases st with ⟨p, a, l, th, d, ty, ib, c, nb, db, sr, qi, tm, ni⟩
  cases qi <;> rfl

/-! ### A destroyed panel silences every directive -/

theorem animDirective_dead (st : ControllerState) (name : AnimName) (force : Bool)
    (h : st.panelAlive = false) : animDirective st name force = false := by
  unfold animDirective
  cases hA : st.animations <;> simp [h]

theorem setAnimation_dead (st : ControllerState) (name : AnimName) (force : Bool)
    (h : st.panelAlive = false) : setAnimation st name force = (st, []) := by
  unfold setAnimation
  rw [animDirective_dead st name force h]
  simp

theorem applyBaseline_dead (now : Nat) (st : ControllerState)
    (h : st.panelAlive = false) : applyBaseline now st = (st, []) := by
  unfold applyBaseline
  split
  · rfl
  · exact setAnimation_dead st _ false h

theorem playTemp_dead (now : Nat) (st : ControllerState) (name : AnimName) (ms : Nat)
    (onDone : Option TempCallback) (h : st.panelAlive = false) :
    (playTemp now st name ms onDone).1.panelAlive = false
      ∧ (playTemp now st name ms onDone).2 = [] := by
  have hd : animDirective { st with tempHoldUntil := now + ms } name true = false :=
    animDirective_dead _ name true h
  constructor
  · simp [h]
  · simp [hd]

theorem checkDiagnostics_dead (cfg : DogConfig) (env : Env) (now : Nat)
    (st : ControllerState) (h : st.panelAlive = false) :
    checkDiagnostics cfg env now st = (st, []) := by
  unfold checkDiagnostics
  simp [h]

@[simp] theorem applyBaseline_fst_eq (now : Nat) (st : ControllerState) :
    (applyBaseline now st).1
      = if st.successRunTimeout.isSome then st
        else { st with currentAnim :=
          if animDirective st (baselineAnim now st) false then some (baselineAnim now st)
          else st.currentAnim } := by
  unfold applyBaseline
  split <;> simp_all

@[simp] theorem applyBaseline_snd_eq (now : Nat) (st : ControllerState) :
    (applyBaseline now st).2
      = if st.successRunTimeout.isSome then []
        else if animDirective st (baselineAnim now st) false then [baselineAnim now st]
        else [] := by
  unfold applyBaseline
  split <;> simp_all

theorem runTimerKind_dead (cfg : DogConfig) (env : Env) (now : Nat)
    (st : ControllerState) (k : TimerKind) (h : st.panelAlive = false) :
    (runTimerKind cfg env now st k).1.panelAlive = false
      ∧ (runTimerKind cfg env now st k).2 = [] := by
  have hd : ∀ (st2 : ControllerState) (n : AnimName) (fo : Bool),
      st2.panelAlive = false → animDirective st2 n fo = false := animDirective_dead
  cases k with
  | tempExpiry onDone =>
    rcases onDone with _ | cb
    · simp [runTimerKind, apply_ite, h, hd]
    · cases cb
      simp [runTimerKind, apply_ite, h, hd]
  | successExpiry => simp [runTimerKind, apply_ite, h, hd]
  | deathRecovery => simp [runTimerKind, apply_ite, h, hd]
  | quickIdle => simp [runTimerKind, apply_ite, h, hd]
  | barkFire => simp [runTimerKind, apply_ite, h, hd]

theorem fireTimer_dead (cfg : DogConfig) (env : Env) (now : Nat)
    (st : ControllerState) (tid : Nat) (h : st.panelAlive = false) :
    (fireTimer cfg env now st tid).1.panelAlive = false
      ∧ (fireTimer cfg env now st tid).2 = [] := by
  unfold fireTimer
  split
  · exact ⟨h, rfl⟩
  · split
    · exact runTimerKind_dead cfg env now _ _ (by simpa [clearTimer] using h)
    · exact ⟨h, rfl⟩


theorem step_dead (cfg : DogConfig) (env : Env) (now : Nat) (st : ControllerState)
    (e : Event) (h : st.panelAlive = false) :
    (step cfg env now st e).1.panelAlive = false ∧ (step cfg env now st e).2 = [] := by
  have hd : ∀ (st2 : ControllerState) (n : AnimName) (fo : Bool),
      st2.panelAlive = false → animDirective st2 n fo = false := animDirective_dead
  have hcd : ∀ (st2 : ControllerState), st2.panelAlive = false →
      checkDiagnostics cfg env now st2 = (st2, []) := fun st2 hh =>
    checkDiagnostics_dead cfg env now st2 hh
  cases e with
  | editChanged largeDeletion =>
    have hp :
        (if isTempActive now { st with lastTypeTime := now, typingActive := true, idleBlinkCount := 0 }
            then ({ st with lastTypeTime := now, typingActive := true, idleBlinkCount := 0 }, ([] : List AnimName))
            else setAnimation { st with lastTypeTime := now, typingActive := true, idleBlinkCount := 0 } .walk false)
          = ({ st with lastTypeTime := now, typingActive := true, idleBlinkCount := 0 }, []) := by
      split
      · rfl
      · exact setAnimation_dead _ _ false (by simpa using h)
    simp only [step]
    split
    · exact ⟨h, rfl⟩
    split
    · exact ⟨h, rfl⟩
    rw [hp]
    dsimp only
    cases hq : st.quickIdleTimeout with
    | none => cases largeDeletion <;> simp [hq, h, hd, clearTimer, scheduleTimer]
    | some qid => cases largeDeletion <;> simp [hq, h, hd, clearTimer, scheduleTimer]
  | saved => simp [step, apply_ite, h, hd]
  | editorClosed => simp [step, apply_ite, h, hd]
  | activeEditorChanged => simp [step, apply_ite, h, hd, hcd]
  | diagnosticsChanged => simp [step, apply_ite, h, hd, hcd]
  | taskStarted => simp [step, apply_ite, h, hd, cancelSuccessRun_eq]
  | taskEnded exitZero =>
    cases exitZero with
    | true =>
      simp only [step]
      rw [if_neg (by decide)]
      constructor
      · simp [h, scheduleTimer]
      · simp [h, hd, scheduleTimer]
    | false =>
      simp only [step]
      rw [if_pos (by decide)]
      rw [setAnimation_dead st .death false h]
      dsimp only
      rw [cancelSuccessRun_eq, cancelDiagBark_eq]
      constructor
      · simp [scheduleTimer, h]
      · rfl
  | debugStarted => simp [step, apply_ite, h, hd, cancelSuccessRun_eq]
  | debugEnded => simp [step, apply_ite, h, hd]
  | idleTick =>
    simp only [step]
    split
    · split
      · exact playTemp_dead now _ .blink 400 (some .blinkIdle) (by simpa using h)
      · split
        · rw [setAnimation_dead st .idleBlink false h]
          exact ⟨h, rfl⟩
        · exact ⟨h, rfl⟩
    · exact ⟨h, rfl⟩
  | timerFires tid => exact fireTimer_dead cfg env now st tid h
  | panelDisposed =>
    simp [step, cancelDiagBark_eq, cancelSuccessRun_eq, cancelQuickIdle_eq]

/-! ### Concrete scenario states -/

/-- The activation state: live panel, all animations resolved, IdleBlink showing. -/
def st0 : ControllerState := (activate 0 allFrames).1

/-- Saved at t=0 starts a 900 ms Sniff override (expiry timer id 0), then
a task fails at t=100: Death is issued and the death lock is taken until
t=5100 (deathCooldown 5000, recovery timer id 1). -/
def deathAfterSniff : ControllerState :=
  (step defaultConfig env0 100 (step defaultConfig env0 0 st0 .saved).1 (.taskEnded false)).1

/-- Claim C1: the spec requires that while deathLocked is true no
animation other than Death is ever issued, including by the expiry timer
of a temporary override started before the failure. The code violates
this: the Sniff expiry timer fires at t=900, well inside the death
cooldown window, and its default applyBaseline path has no deathLocked
guard, so it posts an IdleBlink directive that replaces Death while the
lock is still held. -/
theorem c1_death_lock_violation :
    deathAfterSniff.deathLocked = true
      ∧ (step defaultConfig env0 900 deathAfterSniff (.timerFires 0)).1.deathLocked = true
      ∧ (step defaultConfig env0 900 deathAfterSniff (.timerFires 0)).2 = [AnimName.idleBlink] := by
  decide

/-- A state whose last edit was at t=770, showing IdleBlink, with an
empty timer queue; used for the overlapping-override scenario. -/
def overlapBase : ControllerState :=
  { panelAlive := true
    animations := some allFrames
    lastTypeTime := 770
    tempHoldUntil := 0
    deathLocked := false
    typingActive := false
    idleBlinkCount := 0
    currentAnim := some .idleBlink
    nextBarkAllowedAt := 0
    diagBarkTimeout := none
    successRunTimeout := none
    quickIdleTimeout := none
    timers := []
    nextTimerId := 0 }

/-- playTemporary(A=Sniff, 100) at t=1000, playTemporary(B=Tracking, 50)
at t=1010, then the timer of B fires at t=1060 and reverts to baseline. -/
def overlapAfterB : ControllerState :=
  (fireTimer defaultConfig env0 1060
    (playTemp 1010 (playTemp 1000 overlapBase .sniff 100 none).1 .tracking 50 none).1 1).1

/-- Claim C2 counterexample: the timer of A fires at t=1100 after the
timer of B has already cleared the hold at t=1060. The source compares
the current time against the current tempHoldUntil (now 0), so the check
passes and the timer of A runs the reversion path again; here the
baseline has meanwhile flipped from Walk to IdleBlink, so the supposedly
stale timer posts a directive, refuting that it is a pure no-op. -/
theorem c2_counterexample_stale_timer_acts :
    overlapAfterB.tempHoldUntil = 0
      ∧ (fireTimer defaultConfig env0 1100 overlapAfterB 0).2 = [AnimName.idleBlink] := by
  decide

/-- Diagnostics show an error at t=0, the bark timer (id 0) is scheduled
for t=5000 and fires: Bark plays and the cooldown is set to 35000. -/
def barkFired : ControllerState :=
  (step defaultConfig envErr 5000
    (step defaultConfig envErr 0 st0 .diagnosticsChanged).1 (.timerFires 0)).1

/-- Diagnostics clear at t=6000 (resetting nextBarkAllowedAt to 0), the
Bark override expiry (id 1) fires at t=6200, and diagnostics re-trigger
at t=7000. -/
def barkFlap : ControllerState :=
  (step defaultConfig envErr 7000
    (step defaultConfig env0 6200
      (step defaultConfig env0 6000 barkFired .diagnosticsChanged).1 (.timerFires 1)).1
    .diagnosticsChanged).1

/-- Claim C3 counterexample: a bark fires at T=5000, yet after the
diagnostics clear at t=6000 and re-trigger at t=7000 a second bark timer
is scheduled for t=12000 and actually barks there, inside the window
[5000, 35000): the clear branch resets the cooldown, so flapping
diagnostics defeat the 30 s cooldown. -/
theorem c3_counterexample_flap_rebark :
    (step defaultConfig envErr 5000
        (step defaultConfig envErr 0 st0 .diagnosticsChanged).1 (.timerFires 0)).2
        = [AnimName.bark]
      ∧ barkFired.nextBarkAllowedAt = 35000
      ∧ barkFlap.diagBarkTimeout = some 2
      ∧ ({ id := 2, fireAt := 12000, kind := TimerKind.barkFire } : Timer) ∈ barkFlap.timers
      ∧ (step defaultConfig envErr 12000 barkFlap (.timerFires 2)).2 = [AnimName.bark] := by
  decide

/-- A task ends with exit code 0 at t=0: Run directive, success hold
armed with timer id 0 for t=10000. -/
def successOnce : ControllerState := (step defaultConfig env0 0 st0 (.taskEnded true)).1

/-- A second zero-exit completion at t=3000 overwrites the hold handle
with timer id 1 for t=13000. -/
def successTwice : ControllerState := (step defaultConfig env0 3000 successOnce (.taskEnded true)).1

/-- Claim C4 counterexample: the success branch does not cancel the
prior success-hold timer: after the second success signal the first
timer (id 0) is still pending, and when it fires at t=10000 it clears
the hold armed until t=13000 and reverts to baseline early. Moreover the
Run issued by the second completion is not forced: no directive is
posted because Run is already current. -/
theorem c4_counterexample_prior_hold_timer_not_canceled :
    successTwice.successRunTimeout = some 1
      ∧ ({ id := 0, fireAt := 10000, kind := TimerKind.successExpiry } : Timer) ∈ successTwice.timers
      ∧ (step defaultConfig env0 3000 successOnce (.taskEnded true)).2 = []
      ∧ (step defaultConfig env0 10000 successTwice (.timerFires 0)).1.successRunTimeout = none
      ∧ (step defaultConfig env0 10000 successTwice (.timerFires 0)).2 = [AnimName.idleBlink] := by
  decide

/-- Claim C5 counterexample: a task-start signal arriving while Run is
already current (here: right after a successful completion) posts no
directive at all, so the start signal does not force a Run directive as
the claim states; only the hold cancellation happens. -/
theorem c5_counterexample_no_forced_run :
    successOnce.currentAnim = some AnimName.run
      ∧ successOnce.deathLocked = false
      ∧ (step defaultConfig env0 1000 successOnce .taskStarted).2 = []
      ∧ (step defaultConfig env0 1000 successOnce .taskStarted).1.successRunTimeout = none := by
  decide

/-- Claim C6 counterexample: while the success hold is active and no
death lock is held, a Saved signal is ignored entirely: no Sniff
override starts (the hold gate in the save handler wins over the claimed
override-beats-hold precedence). -/
theorem c6_counterexample_saved_blocked_by_hold :
    successOnce.successRunTimeout = some 0
      ∧ successOnce.deathLocked = false
      ∧ (step defaultConfig env0 100 successOnce .saved).2 = []
      ∧ (step defaultConfig env0 100 successOnce .saved).1.tempHoldUntil = 0 := by
  decide

/-- A task fails at t=0: Death shown, lock taken, recovery timer id 0. -/
def deathOnce : ControllerState := (step defaultConfig env0 0 st0 (.taskEnded false)).1

/-- Claim C7 counterexample: a second failure signal arriving while
Death is already current posts no directive, because the source issues
Death without the force flag; the claimed forced Death directive does
not happen. -/
theorem c7_counterexample_second_failure_silent :
    deathOnce.currentAnim = some AnimName.death
      ∧ (step defaultConfig env0 100 deathOnce (.taskEnded false)).2 = [] := by
  decide

/-- Saved at t=0 schedules the Sniff expiry timer (id 0, t=900), then
the panel is disposed at t=100. -/
def disposedWithTempTimer : ControllerState :=
  (step defaultConfig env0 100 (step defaultConfig env0 0 st0 .saved).1 .panelDisposed).1

/-- Claim C9 counterexample: disposal cancels only the three timers held
in handle variables; the anonymous temporary-override expiry timer is
still pending after the panel is gone, refuting that every pending timer
is canceled at disposal. -/
theorem c9_counterexample_temp_timer_survives_disposal :
    ({ id := 0, fireAt := 900, kind := TimerKind.tempExpiry none } : Timer)
      ∈ disposedWithTempTimer.timers := by
  decide

/-- Claim C10 counterexample: a clean-diagnostics evaluation with a live
panel, barking enabled, no death lock, no success hold and no temporary
override does NOT always issue a Baseline directive: when the baseline
animation (here IdleBlink) is already current, the unforced transition
is a no-op and nothing is posted. -/
theorem c10_counterexample_no_directive_when_baseline_current :
    st0.panelAlive = true
      ∧ st0.currentAnim = some AnimName.idleBlink
      ∧ st0.deathLocked = false
      ∧ st0.successRunTimeout = none
      ∧ isTempActive 1000 st0 = false
      ∧ (step defaultConfig env0 1000 st0 .diagnosticsChanged).2 = [] := by
  decide

/-! ### Claim C8: missing asset -/

/-- Claim C8: when the catalog resolved an animation name to an empty
frame list, setAnimation skips the directive entirely and the state is
untouched: currentAnim keeps its prior value and nothing is posted. -/
theorem c8_missing_asset_noop (st : ControllerState) (name : AnimName) (force : Bool)
    (frames : AnimName → Nat) (hA : st.animations = some frames) (hf : frames name = 0) :
    setAnimation st name force = (st, []) := by
  have hd : animDirective st name force = false := by
    unfold animDirective
    rw [hA]
    by_cases hp : st.panelAlive = false
    · simp [hp]
    · simp [hp, hf]
  unfold setAnimation
  rw [hd]
  simp

/-- A catalog in which Bark resolved to no frames. -/
def missingFrames : AnimName → Nat
  | .bark => 0
  | _ => 1

/-- The activation state over the catalog with the Bark assets missing. -/
def missingAssetState : ControllerState := (activate 0 missingFrames).1

/-- Witness for claim C8 at a concrete input: with the Bark frame list
empty, even a forced Bark transition posts nothing and leaves the state
unchanged. -/
theorem c8_missing_asset_noop_witness :
    setAnimation missingAssetState .bark true = (missingAssetState, []) :=
  c8_missing_asset_noop missingAssetState .bark true missingFrames rfl rfl

/-! ### Guard helper lemmas -/

/-- An unforced transition to the animation already current never posts. -/
theorem animDirective_unforced_repeat (st : ControllerState) (name : AnimName)
    (hc : st.currentAnim = some name) : animDirective st name false = false := by
  unfold animDirective
  cases hA : st.animations with
  | none => rfl
  | some frames =>
    by_cases hp : st.panelAlive = false
    · simp [hp]
    · simp [hp, hc]

/-- With a live panel, resolved frames and no unforced repeat, the
directive fires. -/
theorem animDirective_fires (st : ControllerState) (name : AnimName) (force : Bool)
    (frames : AnimName → Nat) (hA : st.animations = some frames)
    (hP : st.panelAlive = true) (hf : frames name ≠ 0)
    (hrep : force = true ∨ st.currentAnim ≠ some name) :
    animDirective st name force = true := by
  unfold animDirective
  rw [hA]
  dsimp only
  have hp : ¬ st.panelAlive = false := by simp [hP]
  rw [if_neg hp]
  have h2 : ¬ (force = false ∧ st.currentAnim = some name) := by
    rcases hrep with h | h
    · simp [h]
    · exact fun hand => h hand.2
  rw [if_neg h2, if_neg hf]

/-- applyBaseline only ever touches currentAnim. -/
theorem applyBaseline_fst_shape (now : Nat) (st : ControllerState) :
    ∃ c, (applyBaseline now st).1 = { st with currentAnim := c } := by
  rw [applyBaseline_fst_eq]
  split
  · exact ⟨st.currentAnim, rfl⟩
  · exact ⟨_, rfl⟩

/-! ### Claim C3 (amended): the cooldown gate -/

/-- Claim C3 (amended): while the current time is still before
nextBarkAllowedAt (which a firing bark sets to its fire time plus
30000), a diagnostics evaluation that still sees an error or warning
schedules nothing and changes nothing; the original claim fails only
because an evaluation that finds the diagnostics clear resets
nextBarkAllowedAt to 0 and thereby re-enables scheduling inside the
window (see the counterexample). -/
theorem c3_amended_cooldown_gate (cfg : DogConfig) (env : Env) (now T : Nat)
    (st : ControllerState) (hB : st.nextBarkAllowedAt = T + 30000)
    (hN : now < T + 30000) (hE : env.hasErr = true ∨ env.hasWarn = true) :
    checkDiagnostics cfg env now st = (st, []) := by
  have h1 : (env.hasErr || env.hasWarn) = true := by
    rcases hE with h | h <;> simp [h]
  have h2 : decide (st.nextBarkAllowedAt ≤ now) = false := by
    simp only [decide_eq_false_iff_not]
    omega
  unfold checkDiagnostics
  split
  · rfl
  split
  · rfl
  simp [h1, h2]

/-- Witness for claim C3 (amended) at a concrete input: a bark fired at
T=5000, and the error-diagnostics evaluation at t=6000 leaves the state
untouched. -/
theorem c3_amended_cooldown_gate_witness :
    checkDiagnostics defaultConfig envErr 6000 barkFired = (barkFired, []) :=
  c3_amended_cooldown_gate defaultConfig envErr 6000 5000 barkFired (by decide) (by decide)
    (Or.inl rfl)

/-! ### Claim C6 (amended): the save handler -/

/-- Claim C6 (amended): a Saved signal starts the forced 900 ms Sniff
override only when neither the death lock nor the success hold is
active; while the success hold is active the Saved signal is ignored
outright, so in the source the success hold outranks the save-triggered
override, contrary to the claimed precedence. -/
theorem c6_amended_saved_gate (cfg : DogConfig) (env : Env) (now : Nat)
    (st : ControllerState) :
    (st.deathLocked = false → st.successRunTimeout = none →
      (step cfg env now st .saved).1.tempHoldUntil = now + 900
        ∧ ({ id := st.nextTimerId, fireAt := now + 900, kind := TimerKind.tempExpiry none } : Timer)
            ∈ (step cfg env now st .saved).1.timers
        ∧ (∀ frames, st.animations = some frames → st.panelAlive = true →
            frames AnimName.sniff ≠ 0 →
            (step cfg env now st .saved).2 = [AnimName.sniff]
              ∧ (step cfg env now st .saved).1.currentAnim = some AnimName.sniff))
    ∧ (st.deathLocked = false → st.successRunTimeout.isSome = true →
        step cfg env now st .saved = (st, [])) := by
  constructor
  · intro hD hS
    have hg : (!st.deathLocked && st.successRunTimeout.isNone) = true := by
      simp [hD, hS]
    simp only [step, hg, if_true]
    refine ⟨by simp, by simp, ?_⟩
    intro frames hA hP hf
    have hd : animDirective { st with tempHoldUntil := now + 900 } AnimName.sniff true = true :=
      animDirective_fires _ _ _ frames hA hP hf (Or.inl rfl)
    constructor
    · simp [hd]
    · simp [hd]
  · intro hD hS
    rcases Option.isSome_iff_exists.mp hS with ⟨j, hj⟩
    simp only [step, hj]
    simp

/-- Witness for claim C6 (amended) at a concrete input: saving at t=50
in the activation state forces Sniff and arms its 900 ms expiry timer,
and saving at t=100 during the success hold does nothing. -/
theorem c6_amended_saved_gate_witness :
    ((step defaultConfig env0 50 st0 .saved).2 = [AnimName.sniff]
      ∧ (step defaultConfig env0 50 st0 .saved).1.tempHoldUntil = 50 + 900)
      ∧ step defaultConfig env0 100 successOnce .saved = (successOnce, []) :=
  ⟨⟨(((c6_amended_saved_gate defaultConfig env0 50 st0).1 rfl rfl).2.2 allFrames rfl rfl
      (by decide)).1,
    ((c6_amended_saved_gate defaultConfig env0 50 st0).1 rfl rfl).1⟩,
   (c6_amended_saved_gate defaultConfig env0 100 successOnce).2 rfl (by decide)⟩

/-! ### Claim C5 (amended): start signals -/

/-- Claim C5 (amended): with no death lock, a start signal (task start
or debug start) unconditionally cancels the success hold - the handle is
nulled and the pending hold timer leaves the queue, so no reversion can
fire at its 10 second boundary - and issues Run through an unforced
transition: a directive is posted exactly when Run is not already the
current animation (and the panel and frames are available); when Run is
already current, nothing is posted, contrary to the claimed forced
directive. -/
theorem c5_amended_start_signal (cfg : DogConfig) (env : Env) (now : Nat)
    (st : ControllerState) (hD : st.deathLocked = false) :
    ((step cfg env now st .taskStarted).1.successRunTimeout = none
      ∧ (∀ j, st.successRunTimeout = some j →
          ∀ t ∈ (step cfg env now st .taskStarted).1.timers, t.id ≠ j)
      ∧ (st.currentAnim = some AnimName.run → (step cfg env now st .taskStarted).2 = [])
      ∧ (∀ frames, st.animations = some frames → st.panelAlive = true →
          st.currentAnim ≠ some AnimName.run → frames AnimName.run ≠ 0 →
          (step cfg env now st .taskStarted).2 = [AnimName.run]))
    ∧ ((step cfg env now st .debugStarted).1.successRunTimeout = none
      ∧ (∀ j, st.successRunTimeout = some j →
          ∀ t ∈ (step cfg env now st .debugStarted).1.timers, t.id ≠ j)
      ∧ (st.currentAnim = some AnimName.run → (step cfg env now st .debugStarted).2 = [])
      ∧ (∀ frames, st.animations = some frames → st.panelAlive = true →
          st.currentAnim ≠ some AnimName.run → frames AnimName.run ≠ 0 →
          (step cfg env now st .debugStarted).2 = [AnimName.run])) := by
  have hg : (!st.deathLocked) = true := by simp [hD]
  constructor <;>
  · simp only [step, hg, if_true]
    refine ⟨?_, ?_, ?_, ?_⟩
    · rw [cancelSuccessRun_eq]
    · intro j hj t ht
      rw [cancelSuccessRun_eq] at ht
      simp only [setAnimation_fst_eq] at ht
      rw [hj] at ht
      simp only [List.mem_filter] at ht
      simpa using ht.2
    · intro hc
      have hd : animDirective st AnimName.run false = false :=
        animDirective_unforced_repeat st AnimName.run hc
      simp [hd]
    · intro frames hA hP hc hf
      have hd : animDirective st AnimName.run false = true :=
        animDirective_fires st AnimName.run false frames hA hP hf (Or.inr hc)
      simp [hd]

/-- Witness for claim C5 (amended) at concrete inputs: right after a
successful completion, a task start cancels the hold and posts nothing
(Run already current); in the activation state a task start posts Run. -/
theorem c5_amended_start_signal_witness :
    ((step defaultConfig env0 1000 successOnce .taskStarted).1.successRunTimeout = none
      ∧ (step defaultConfig env0 1000 successOnce .taskStarted).2 = [])
      ∧ (step defaultConfig env0 5 st0 .taskStarted).2 = [AnimName.run] :=
  ⟨⟨(c5_amended_start_signal defaultConfig env0 1000 successOnce (by decide)).1.1,
    (c5_amended_start_signal defaultConfig env0 1000 successOnce (by decide)).1.2.2.1 (by decide)⟩,
   (c5_amended_start_signal defaultConfig env0 5 st0 (by decide)).1.2.2.2 allFrames rfl rfl
     (by decide) (by decide)⟩

/-! ### Claim C4 (amended): success completion -/

/-- Claim C4 (amended): a zero-exit completion signal arms the success
hold (handle set to the fresh timer id) and schedules a 10 second
one-shot timer whose callback clears the hold and, when no temporary
override is active and no death lock is held, runs the baseline
reversion. However it does NOT cancel a prior success-hold timer - every
previously pending timer is still pending afterwards - and the Run it
issues is unforced: nothing is posted when Run is already current. -/
theorem c4_amended_success_rearm (cfg : DogConfig) (env : Env) (now : Nat)
    (st : ControllerState) :
    (step cfg env now st (.taskEnded true)).1.successRunTimeout = some st.nextTimerId
      ∧ ({ id := st.nextTimerId, fireAt := now + SUCCESS_RUN_DURATION_MS,
            kind := TimerKind.successExpiry } : Timer)
          ∈ (step cfg env now st (.taskEnded true)).1.timers
      ∧ (∀ t ∈ st.timers, t ∈ (step cfg env now st (.taskEnded true)).1.timers)
      ∧ (st.currentAnim = some AnimName.run → (step cfg env now st (.taskEnded true)).2 = [])
      ∧ (∀ frames, st.animations = some frames → st.panelAlive = true →
          st.currentAnim ≠ some AnimName.run → frames AnimName.run ≠ 0 →
          (step cfg env now st (.taskEnded true)).2 = [AnimName.run])
      ∧ (∀ (env2 : Env) (now2 : Nat) (st2 : ControllerState),
          (runTimerKind cfg env2 now2 st2 .successExpiry).1.successRunTimeout = none)
      ∧ (∀ (env2 : Env) (now2 : Nat) (st2 : ControllerState),
          isTempActive now2 st2 = false → st2.deathLocked = false →
          runTimerKind cfg env2 now2 st2 .successExpiry
            = applyBaseline now2 { st2 with successRunTimeout := none }) := by
  refine ⟨?_, ?_, ?_, ?_, ?_, ?_, ?_⟩
  · simp only [step]
    rw [if_neg (by decide)]
    simp [scheduleTimer]
  · simp only [step]
    rw [if_neg (by decide)]
    simp [scheduleTimer]
  · intro t ht
    simp only [step]
    rw [if_neg (by decide)]
    simp only [setAnimation_fst_eq, scheduleTimer, List.mem_append]
    exact Or.inl ht
  · intro hc
    simp only [step]
    rw [if_neg (by decide)]
    simp [scheduleTimer, animDirective_unforced_repeat, hc]
  · intro frames hA hP hc hf
    simp only [step]
    rw [if_neg (by decide)]
    have hd := animDirective_fires
      { (scheduleTimer st (now + SUCCESS_RUN_DURATION_MS) TimerKind.successExpiry).1 with
          successRunTimeout := some (scheduleTimer st (now + SUCCESS_RUN_DURATION_MS)
            TimerKind.successExpiry).2 }
      AnimName.run false frames (by simpa [scheduleTimer] using hA)
      (by simpa [scheduleTimer] using hP) hf (Or.inr (by simpa [scheduleTimer] using hc))
    simp [hd]
  · intro env2 now2 st2
    simp only [runTimerKind]
    split
    · obtain ⟨c, hshape⟩ := applyBaseline_fst_shape now2
        { st2 with successRunTimeout := none }
      rw [hshape]
    · rfl
  · intro env2 now2 st2 h1 h2
    simp only [runTimerKind]
    rw [if_pos]
    simp only [isTempActive] at h1 ⊢
    simp [h1, h2]

/-- Witness for claim C4 (amended) at a concrete input: the second
success completion at t=3000 re-arms the hold with timer id 1 while the
first hold timer (id 0) is still pending. -/
theorem c4_amended_success_rearm_witness :
    (step defaultConfig env0 3000 successOnce (.taskEnded true)).1.successRunTimeout = some 1
      ∧ ({ id := 0, fireAt := 10000, kind := TimerKind.successExpiry } : Timer)
          ∈ (step defaultConfig env0 3000 successOnce (.taskEnded true)).1.timers :=
  ⟨(c4_amended_success_rearm defaultConfig env0 3000 successOnce).1,
   (c4_amended_success_rearm defaultConfig env0 3000 successOnce).2.2.1
     { id := 0, fireAt := 10000, kind := TimerKind.successExpiry } (by decide)⟩

/-! ### Claim C7 (amended): failure completion -/

/-- Claim C7 (amended): a nonzero-exit completion takes the death lock,
cancels both the success-hold timer and the pending bark timer, and
schedules the recovery timer for deathCooldown ms; at fire time the
recovery callback clears the lock and, when no temporary override is
active, runs the baseline reversion (which itself defers to an active
success hold). The Death directive, however, is unforced: when Death is
already the current animation nothing is posted, contrary to the claimed
forced directive. The two freshness hypotheses state that live timer
handles are older than the next handle the host will allocate, which
holds for every state the controller actually reaches. -/
theorem c7_amended_failure_lock (cfg : DogConfig) (env : Env) (now : Nat)
    (st : ControllerState)
    (hS : ∀ j, st.successRunTimeout = some j → j < st.nextTimerId)
    (hB : ∀ j, st.diagBarkTimeout = some j → j < st.nextTimerId) :
    (step cfg env now st (.taskEnded false)).1.deathLocked = true
      ∧ (step cfg env now st (.taskEnded false)).1.successRunTimeout = none
      ∧ (step cfg env now st (.taskEnded false)).1.diagBarkTimeout = none
      ∧ (∀ j, st.successRunTimeout = some j →
          ∀ t ∈ (step cfg env now st (.taskEnded false)).1.timers, t.id ≠ j)
      ∧ (∀ j, st.diagBarkTimeout = some j →
          ∀ t ∈ (step cfg env now st (.taskEnded false)).1.timers, t.id ≠ j)
      ∧ ({ id := st.nextTimerId, fireAt := now + cfg.deathCooldown,
            kind := TimerKind.deathRecovery } : Timer)
          ∈ (step cfg env now st (.taskEnded false)).1.timers
      ∧ (st.currentAnim = some AnimName.death →
          (step cfg env now st (.taskEnded false)).2 = [])
      ∧ (∀ frames, st.animations = some frames → st.panelAlive = true →
          st.currentAnim ≠ some AnimName.death → frames AnimName.death ≠ 0 →
          (step cfg env now st (.taskEnded false)).2 = [AnimName.death])
      ∧ (∀ (env2 : Env) (now2 : Nat) (st2 : ControllerState),
          (runTimerKind cfg env2 now2 st2 .deathRecovery).1.deathLocked = false)
      ∧ (∀ (env2 : Env) (now2 : Nat) (st2 : ControllerState),
          isTempActive now2 st2 = false →
          runTimerKind cfg env2 now2 st2 .deathRecovery
            = applyBaseline now2 { st2 with deathLocked := false }) := by
  refine ⟨?_, ?_, ?_, ?_, ?_, ?_, ?_, ?_, ?_, ?_⟩
  · simp only [step]
    rw [if_pos (by decide)]
    simp [cancelSuccessRun_eq, cancelDiagBark_eq, scheduleTimer]
  · simp only [step]
    rw [if_pos (by decide)]
    simp [cancelSuccessRun_eq, cancelDiagBark_eq, scheduleTimer]
  · simp only [step]
    rw [if_pos (by decide)]
    simp [cancelSuccessRun_eq, cancelDiagBark_eq, scheduleTimer]
  · intro j hj t ht
    have hlt := hS j hj
    simp only [step] at ht
    rw [if_pos (by decide)] at ht
    simp only [setAnimation_fst_eq, cancelSuccessRun_eq, cancelDiagBark_eq, scheduleTimer,
      hj] at ht
    rcases hdb : st.diagBarkTimeout with _ | bj <;>
      simp only [hdb] at ht
    · simp only [List.mem_append, List.mem_filter, List.mem_singleton] at ht
      rcases ht with ⟨_, hne⟩ | hrec
      · simpa using hne
      · subst hrec
        simp only []
        omega
    · simp only [List.mem_filter, List.mem_append, List.mem_singleton] at ht
      rcases ht with ⟨⟨_, hne⟩ | hrec, _⟩
      · simpa using hne
      · subst hrec
        simp only []
        omega
  · intro j hj t ht
    simp only [step] at ht
    rw [if_pos (by decide)] at ht
    simp only [setAnimation_fst_eq, cancelSuccessRun_eq, cancelDiagBark_eq, scheduleTimer,
      hj] at ht
    simp only [List.mem_filter] at ht
    simpa using ht.2
  · simp only [step]
    rw [if_pos (by decide)]
    simp only [setAnimation_fst_eq, cancelSuccessRun_eq, cancelDiagBark_eq, scheduleTimer]
    rcases hdb : st.diagBarkTimeout with _ | bj <;> simp only [hdb]
    · simp
    · have hlt := hB bj hdb
      simp only [List.mem_filter, List.mem_append, List.mem_singleton]
      refine ⟨Or.inr (by trivial), ?_⟩
      simp only [bne_iff_ne]
      omega
  · intro hc
    simp only [step]
    rw [if_pos (by decide)]
    simp [animDirective_unforced_repeat, hc]
  · intro frames hA hP hc hf
    simp only [step]
    rw [if_pos (by decide)]
    have hd := animDirective_fires st AnimName.death false frames hA hP hf (Or.inr hc)
    simp [hd]
  · intro env2 now2 st2
    simp only [runTimerKind]
    split
    · obtain ⟨c, hshape⟩ := applyBaseline_fst_shape now2 { st2 with deathLocked := false }
      rw [hshape]
    · rfl
  · intro env2 now2 st2 h1
    simp only [runTimerKind]
    rw [if_pos]
    simp only [isTempActive] at h1 ⊢
    simp [h1]

/-- Witness for claim C7 (amended) at a concrete input: a failure at
t=500 during the success hold takes the lock and removes the pending
hold timer (id 0) from the queue. -/
theorem c7_amended_failure_lock_witness :
    (step defaultConfig env0 500 successOnce (.taskEnded false)).1.deathLocked = true
      ∧ (∀ t ∈ (step defaultConfig env0 500 successOnce (.taskEnded false)).1.timers,
          t.id ≠ 0) :=
  ⟨(c7_amended_failure_lock defaultConfig env0 500 successOnce
      (fun j hj => by
        injection (show (some 0 : Option Nat) = some j from hj) with h2
        exact h2 ▸ (by decide : (0 : Nat) < successOnce.nextTimerId))
      (fun j hj => Option.noConfusion (show (none : Option Nat) = some j from hj))).1,
   fun t ht => (c7_amended_failure_lock defaultConfig env0 500 successOnce
      (fun j hj => by
        injection (show (some 0 : Option Nat) = some j from hj) with h2
        exact h2 ▸ (by decide : (0 : Nat) < successOnce.nextTimerId))
      (fun j hj => Option.noConfusion (show (none : Option Nat) = some j from hj))).2.2.2.1
      0 (by decide) t ht⟩

/-! ### Claim C10 (amended): clean diagnostics -/

/-- Claim C10 (amended): a diagnostics evaluation that finds no error
and no warning for the active document - with the panel alive, barking
enabled, no death lock and no success hold - cancels any pending bark
timer, resets nextBarkAllowedAt to 0, and, when additionally no
temporary override is active, applies the Baseline rule; this posts a
Walk or IdleBlink directive exactly when that baseline animation is not
already current (the unforced transition is a no-op when it is). -/
theorem c10_amended_clear_diagnostics (cfg : DogConfig) (env : Env) (now : Nat)
    (st : ControllerState) (frames : AnimName → Nat)
    (hP : st.panelAlive = true) (hA : st.animations = some frames)
    (hEB : cfg.enableBark = true) (hD : st.deathLocked = false)
    (hSu : st.successRunTimeout = none) (hEd : env.hasEditor = true)
    (hErr : env.hasErr = false) (hW : env.hasWarn = false) :
    (checkDiagnostics cfg env now st).1.diagBarkTimeout = none
      ∧ (checkDiagnostics cfg env now st).1.nextBarkAllowedAt = 0
      ∧ (∀ j, st.diagBarkTimeout = some j →
          ∀ t ∈ (checkDiagnostics cfg env now st).1.timers, t.id ≠ j)
      ∧ (isTempActive now st = true → (checkDiagnostics cfg env now st).2 = [])
      ∧ (isTempActive now st = false →
          (st.currentAnim = some (baselineAnim now st) → (checkDiagnostics cfg env now st).2 = [])
          ∧ (st.currentAnim ≠ some (baselineAnim now st) → frames (baselineAnim now st) ≠ 0 →
              (checkDiagnostics cfg env now st).2 = [baselineAnim now st]
                ∧ (checkDiagnostics cfg env now st).1.currentAnim
                    = some (baselineAnim now st))) := by
  have hred : checkDiagnostics cfg env now st
      = (if !isTempActive now ({ cancelDiagBark st with nextBarkAllowedAt := 0 } : ControllerState)
            && !({ cancelDiagBark st with nextBarkAllowedAt := 0 } : ControllerState).deathLocked
         then applyBaseline now ({ cancelDiagBark st with nextBarkAllowedAt := 0 } : ControllerState)
         else (({ cancelDiagBark st with nextBarkAllowedAt := 0 } : ControllerState), [])) := by
    unfold checkDiagnostics
    rw [if_neg (by simp [hP, hA, hD, hSu, hEB]), if_neg (by simp [hEd]),
      if_pos (by simp [hErr, hW])]
  have hc2 : ({ cancelDiagBark st with nextBarkAllowedAt := 0 } : ControllerState)
      = { st with
          diagBarkTimeout := none
          nextBarkAllowedAt := 0
          timers := (match st.diagBarkTimeout with
            | some i => st.timers.filter (fun t => t.id != i)
            | none => st.timers) } := by
    rw [cancelDiagBark_eq]
  rw [hred, hc2]
  have hTemp : isTempActive now
      ({ st with
          diagBarkTimeout := none
          nextBarkAllowedAt := 0
          timers := (match st.diagBarkTimeout with
            | some i => st.timers.filter (fun t => t.id != i)
            | none => st.timers) } : ControllerState) = isTempActive now st := rfl
  have hBase : baselineAnim now
      ({ st with
          diagBarkTimeout := none
          nextBarkAllowedAt := 0
          timers := (match st.diagBarkTimeout with
            | some i => st.timers.filter (fun t => t.id != i)
            | none => st.timers) } : ControllerState) = baselineAnim now st := rfl
  refine ⟨?_, ?_, ?_, ?_, ?_⟩
  · split
    · obtain ⟨c, hshape⟩ := applyBaseline_fst_shape now _
      rw [hshape]
    · rfl
  · split
    · obtain ⟨c, hshape⟩ := applyBaseline_fst_shape now _
      rw [hshape]
    · rfl
  · intro j hj t ht
    have htimers : ∀ (x : ControllerState),
        (if !isTempActive now x && !x.deathLocked then applyBaseline now x else (x, [])).1.timers
          = x.timers := by
      intro x
      split
      · obtain ⟨c, hshape⟩ := applyBaseline_fst_shape now x
        rw [hshape]
      · rfl
    rw [htimers] at ht
    simp only [hj] at ht
    simp only [List.mem_filter] at ht
    simpa using ht.2
  · intro hT
    rw [if_neg (by simp only [hTemp, hT]; simp)]
  · intro hT
    rw [if_pos (by simp only [hTemp, hT]; simp [hD])]
    constructor
    · intro hc
      unfold applyBaseline
      rw [if_neg (by simp [hSu])]
      rw [hBase]
      have hd : animDirective
          ({ st with
              diagBarkTimeout := none
              nextBarkAllowedAt := 0
              timers := (match st.diagBarkTimeout with
                | some i => st.timers.filter (fun t => t.id != i)
                | none => st.timers) } : ControllerState) (baselineAnim now st) false = false :=
        animDirective_unforced_repeat _ (baselineAnim now st) (by simpa using hc)
      simp [hd]
    · intro hc hf
      unfold applyBaseline
      rw [if_neg (by simp [hSu])]
      rw [hBase]
      have hd : animDirective
          ({ st with
              diagBarkTimeout := none
              nextBarkAllowedAt := 0
              timers := (match st.diagBarkTimeout with
                | some i => st.timers.filter (fun t => t.id != i)
                | none => st.timers) } : ControllerState) (baselineAnim now st) false = true :=
        animDirective_fires _ (baselineAnim now st) false frames (by simpa using hA)
          (by simpa using hP) hf (Or.inr (by simpa using hc))
      simp [hd]

/-- Witness state for claim C10: an error evaluation at t=0 left a bark
timer (id 0) pending for t=5000. -/
def barkPending : ControllerState := (step defaultConfig envErr 0 st0 .diagnosticsChanged).1

/-- Witness for claim C10 (amended) at a concrete input: the clean
evaluation at t=1000 cancels the pending bark timer, resets the
cooldown, and posts nothing because IdleBlink is already showing. -/
theorem c10_amended_clear_diagnostics_witness :
    (checkDiagnostics defaultConfig env0 1000 barkPending).1.diagBarkTimeout = none
      ∧ (checkDiagnostics defaultConfig env0 1000 barkPending).1.nextBarkAllowedAt = 0
      ∧ (checkDiagnostics defaultConfig env0 1000 barkPending).2 = [] := by
  have H := c10_amended_clear_diagnostics defaultConfig env0 1000 barkPending allFrames
    rfl rfl rfl rfl rfl rfl rfl rfl
  exact ⟨H.1, H.2.1, (H.2.2.2.2 (by decide)).1 (by decide)⟩

/-! ### Claim C9 (amended): panel disposal -/

/-- Membership in the queue produced by the cancel-and-null idiom
implies membership in the original queue. -/
theorem mem_of_mem_cancelMatch {o : Option Nat} {l : List Timer} {t : Timer}
    (h : t ∈ (match o with
      | some i => l.filter (fun (u : Timer) => u.id != i)
      | none => l)) : t ∈ l := by
  cases o with
  | none => exact h
  | some i => exact (List.mem_filter.mp h).1

/-- A timer surviving the filter for a handle has a different id. -/
theorem ne_of_mem_filter_id {i : Nat} {l : List Timer} {t : Timer}
    (h : t ∈ l.filter (fun (u : Timer) => u.id != i)) : t.id ≠ i := by
  have h2 := (List.mem_filter.mp h).2
  simpa using h2

/-- Claim C9 (amended): disposing the panel cancels exactly the three
timers whose handles are stored - the diagnostic-bark delay, the
success-hold timer and the quick-idle watchdog - and nulls their
handles. The anonymous temporary-override expiry timers, the anonymous
death-recovery timer and the periodic idle ticker are NOT canceled (see
the counterexample); however, no event or timer callback that runs after
disposal can ever post a directive, because setAnimation requires a
live panel, and the panel never comes back. -/
theorem c9_amended_disposal (cfg : DogConfig) (env : Env) (now : Nat)
    (st : ControllerState) :
    (step cfg env now st .panelDisposed).1.panelAlive = false
      ∧ (step cfg env now st .panelDisposed).1.diagBarkTimeout = none
      ∧ (step cfg env now st .panelDisposed).1.successRunTimeout = none
      ∧ (step cfg env now st .panelDisposed).1.quickIdleTimeout = none
      ∧ (∀ j, st.diagBarkTimeout = some j →
          ∀ t ∈ (step cfg env now st .panelDisposed).1.timers, t.id ≠ j)
      ∧ (∀ j, st.successRunTimeout = some j →
          ∀ t ∈ (step cfg env now st .panelDisposed).1.timers, t.id ≠ j)
      ∧ (∀ j, st.quickIdleTimeout = some j →
          ∀ t ∈ (step cfg env now st .panelDisposed).1.timers, t.id ≠ j)
      ∧ (∀ (env2 : Env) (now2 : Nat) (e : Event),
          (step cfg env2 now2 (step cfg env now st .panelDisposed).1 e).1.panelAlive = false
            ∧ (step cfg env2 now2 (step cfg env now st .panelDisposed).1 e).2 = []) := by
  have hpanel : (step cfg env now st .panelDisposed).1.panelAlive = false := by
    simp only [step]
    simp [cancelDiagBark_eq, cancelSuccessRun_eq, cancelQuickIdle_eq]
  refine ⟨hpanel, ?_, ?_, ?_, ?_, ?_, ?_, ?_⟩
  · simp only [step]
    simp [cancelDiagBark_eq, cancelSuccessRun_eq, cancelQuickIdle_eq]
  · simp only [step]
    simp [cancelDiagBark_eq, cancelSuccessRun_eq, cancelQuickIdle_eq]
  · simp only [step]
    simp [cancelDiagBark_eq, cancelSuccessRun_eq, cancelQuickIdle_eq]
  · intro j hj t ht
    simp only [step, cancelDiagBark_eq, cancelSuccessRun_eq, cancelQuickIdle_eq] at ht
    have h1 := mem_of_mem_cancelMatch (mem_of_mem_cancelMatch ht)
    rw [hj] at h1
    exact ne_of_mem_filter_id h1
  · intro j hj t ht
    simp only [step, cancelDiagBark_eq, cancelSuccessRun_eq, cancelQuickIdle_eq] at ht
    have h1 := mem_of_mem_cancelMatch ht
    rw [hj] at h1
    exact ne_of_mem_filter_id h1
  · intro j hj t ht
    simp only [step, cancelDiagBark_eq, cancelSuccessRun_eq, cancelQuickIdle_eq] at ht
    rw [hj] at ht
    exact ne_of_mem_filter_id ht
  · intro env2 now2 e
    exact step_dead cfg env2 now2 _ e hpanel

/-- Witness for claim C9 (amended) at a concrete input: disposing the
panel at t=100 kills the panel, and the leftover Sniff expiry timer
firing at t=900 posts no directive against the destroyed surface. -/
theorem c9_amended_disposal_witness :
    disposedWithTempTimer.panelAlive = false
      ∧ (step defaultConfig env0 900 disposedWithTempTimer (.timerFires 0)).2 = [] :=
  ⟨(c9_amended_disposal defaultConfig env0 100 (step defaultConfig env0 0 st0 .saved).1).1,
   ((c9_amended_disposal defaultConfig env0 100
      (step defaultConfig env0 0 st0 .saved).1).2.2.2.2.2.2.2 env0 900 (.timerFires 0)).2⟩

/-! ### Claim C2 (amended): overlapping overrides -/

/-- Firing a due default-callback expiry timer whose hold has expired
runs the reversion: the timer leaves the queue, the hold is zeroed and
the baseline rule is applied. -/
theorem fireTimer_tempExpiry_hit (cfg : DogConfig) (env : Env) (now : Nat)
    (st : ControllerState) (tid fa : Nat)
    (hfind : st.timers.find? (fun (u : Timer) => u.id == tid)
      = some { id := tid, fireAt := fa, kind := .tempExpiry none })
    (hdue : fa ≤ now) (hhold : st.tempHoldUntil ≤ now) :
    fireTimer cfg env now st tid
      = applyBaseline now { clearTimer st tid with tempHoldUntil := 0 } := by
  unfold fireTimer
  rw [hfind]
  dsimp only
  rw [if_pos (by simpa using hdue)]
  simp only [runTimerKind]
  rw [if_pos (by simp [clearTimer, hhold])]

/-- Firing a due expiry timer while a newer hold still covers the fire
time is a pure no-op apart from the timer leaving the queue. -/
theorem fireTimer_tempExpiry_stale (cfg : DogConfig) (env : Env) (now : Nat)
    (st : ControllerState) (tid fa : Nat) (onDone : Option TempCallback)
    (hfind : st.timers.find? (fun (u : Timer) => u.id == tid)
      = some { id := tid, fireAt := fa, kind := .tempExpiry onDone })
    (hdue : fa ≤ now) (hhold : now < st.tempHoldUntil) :
    fireTimer cfg env now st tid = (clearTimer st tid, []) := by
  unfold fireTimer
  rw [hfind]
  dsimp only
  rw [if_pos (by simpa using hdue)]
  simp only [runTimerKind]
  rw [if_neg (by simp [clearTimer]; omega)]

/-- Claim C2 (amended): in the playTemporary(A,100) then
playTemporary(B,50) scenario (B requested before the 100 ms of A have
elapsed, from a state with an empty timer queue), exactly one reversion
happens while the hold is live. If B expires no later than the timer of
A fires, the timer of B performs the reversion (it zeroes the hold), but
the timer of A firing afterwards is NOT a pure no-op: the stale check of
the source (current time at least tempHoldUntil, now 0) passes, so the
timer of A runs the whole reversion path again - the counterexample
shows it even posting a directive. Only in the opposite order, when the
timer of A fires while the hold of B still covers it, is the timer of A
the pure no-op the claim describes. -/
theorem c2_amended_overlap (cfg : DogConfig) (env : Env) (st : ControllerState)
    (t0 t1 : Nat) (hT : st.timers = []) (_h01 : t0 ≤ t1) (_hlt : t1 < t0 + 100) :
    (t1 + 50 ≤ t0 + 100 →
      (fireTimer cfg env (t1 + 50)
          (playTemp t1 (playTemp t0 st .sniff 100 none).1 .tracking 50 none).1
          (st.nextTimerId + 1)).1.tempHoldUntil = 0
        ∧ fireTimer cfg env (t0 + 100)
            (fireTimer cfg env (t1 + 50)
              (playTemp t1 (playTemp t0 st .sniff 100 none).1 .tracking 50 none).1
              (st.nextTimerId + 1)).1
            st.nextTimerId
          = applyBaseline (t0 + 100)
              { (fireTimer cfg env (t1 + 50)
                  (playTemp t1 (playTemp t0 st .sniff 100 none).1 .tracking 50 none).1
                  (st.nextTimerId + 1)).1 with timers := [], tempHoldUntil := 0 })
    ∧ (t0 + 100 < t1 + 50 →
        (fireTimer cfg env (t0 + 100)
            (playTemp t1 (playTemp t0 st .sniff 100 none).1 .tracking 50 none).1
            st.nextTimerId).2 = []
        ∧ (fireTimer cfg env (t0 + 100)
            (playTemp t1 (playTemp t0 st .sniff 100 none).1 .tracking 50 none).1
            st.nextTimerId).1.tempHoldUntil = t1 + 50
        ∧ (fireTimer cfg env (t0 + 100)
            (playTemp t1 (playTemp t0 st .sniff 100 none).1 .tracking 50 none).1
            st.nextTimerId).1.currentAnim
          = (playTemp t1 (playTemp t0 st .sniff 100 none).1 .tracking 50 none).1.currentAnim) := by
  have hne : (st.nextTimerId == st.nextTimerId + 1) = false := by
    simp only [beq_eq_false_iff_ne]
    omega
  have hself : (st.nextTimerId == st.nextTimerId) = true := by simp
  have hselfB : (st.nextTimerId + 1 == st.nextTimerId + 1) = true := by simp
  have hneB : (st.nextTimerId + 1 == st.nextTimerId) = false := by
    simp only [beq_eq_false_iff_ne]
    omega
  have hbneA : (st.nextTimerId != st.nextTimerId + 1) = true := by
    simp only [bne_iff_ne]
    omega
  have hbneB : (st.nextTimerId + 1 != st.nextTimerId + 1) = false := by simp
  have hbneA2 : (st.nextTimerId != st.nextTimerId) = false := by simp
  have htimers2 :
      (playTemp t1 (playTemp t0 st .sniff 100 none).1 .tracking 50 none).1.timers
        = [{ id := st.nextTimerId, fireAt := t0 + 100, kind := .tempExpiry none },
           { id := st.nextTimerId + 1, fireAt := t1 + 50, kind := .tempExpiry none }] := by
    simp [hT]
  have hhold2 :
      (playTemp t1 (playTemp t0 st .sniff 100 none).1 .tracking 50 none).1.tempHoldUntil
        = t1 + 50 := by
    simp
  constructor
  · intro h50
    have hfindB :
        (playTemp t1 (playTemp t0 st .sniff 100 none).1 .tracking 50 none).1.timers.find?
            (fun (u : Timer) => u.id == st.nextTimerId + 1)
          = some { id := st.nextTimerId + 1, fireAt := t1 + 50, kind := .tempExpiry none } := by
      rw [htimers2]
      simp [List.find?, hne, hselfB]
    have hB := fireTimer_tempExpiry_hit cfg env (t1 + 50)
      (playTemp t1 (playTemp t0 st .sniff 100 none).1 .tracking 50 none).1
      (st.nextTimerId + 1) (t1 + 50) hfindB (Nat.le_refl _) (by rw [hhold2])
    obtain ⟨c, hshape⟩ := applyBaseline_fst_shape (t1 + 50)
      { clearTimer (playTemp t1 (playTemp t0 st .sniff 100 none).1 .tracking 50 none).1
          (st.nextTimerId + 1) with tempHoldUntil := 0 }
    have hp3 : (fireTimer cfg env (t1 + 50)
        (playTemp t1 (playTemp t0 st .sniff 100 none).1 .tracking 50 none).1
        (st.nextTimerId + 1)).1
      = { clearTimer (playTemp t1 (playTemp t0 st .sniff 100 none).1 .tracking 50 none).1
            (st.nextTimerId + 1) with tempHoldUntil := 0, currentAnim := c } := by
      rw [hB, hshape]
    have hp3timers : (fireTimer cfg env (t1 + 50)
        (playTemp t1 (playTemp t0 st .sniff 100 none).1 .tracking 50 none).1
        (st.nextTimerId + 1)).1.timers
      = [{ id := st.nextTimerId, fireAt := t0 + 100, kind := .tempExpiry none }] := by
      rw [hp3]
      show ((playTemp t1 (playTemp t0 st .sniff 100 none).1 .tracking 50 none).1.timers.filter
        (fun (u : Timer) => u.id != st.nextTimerId + 1)) = _
      rw [htimers2]
      simp [List.filter, hbneA, hbneB]
    have hp3hold : (fireTimer cfg env (t1 + 50)
        (playTemp t1 (playTemp t0 st .sniff 100 none).1 .tracking 50 none).1
        (st.nextTimerId + 1)).1.tempHoldUntil = 0 := by
      rw [hp3]
    refine ⟨hp3hold, ?_⟩
    have hfindA : (fireTimer cfg env (t1 + 50)
        (playTemp t1 (playTemp t0 st .sniff 100 none).1 .tracking 50 none).1
        (st.nextTimerId + 1)).1.timers.find? (fun (u : Timer) => u.id == st.nextTimerId)
      = some { id := st.nextTimerId, fireAt := t0 + 100, kind := .tempExpiry none } := by
      rw [hp3timers]
      simp [List.find?, hself]
    have hA := fireTimer_tempExpiry_hit cfg env (t0 + 100)
      (fireTimer cfg env (t1 + 50)
        (playTemp t1 (playTemp t0 st .sniff 100 none).1 .tracking 50 none).1
        (st.nextTimerId + 1)).1
      st.nextTimerId (t0 + 100) hfindA (Nat.le_refl _) (by rw [hp3hold]; exact Nat.zero_le _)
    rw [hA]
    have hclear : clearTimer (fireTimer cfg env (t1 + 50)
        (playTemp t1 (playTemp t0 st .sniff 100 none).1 .tracking 50 none).1
        (st.nextTimerId + 1)).1 st.nextTimerId
      = { (fireTimer cfg env (t1 + 50)
            (playTemp t1 (playTemp t0 st .sniff 100 none).1 .tracking 50 none).1
            (st.nextTimerId + 1)).1 with timers := [] } := by
      unfold clearTimer
      rw [hp3timers]
      simp [List.filter, hbneA2]
    rw [hclear]
  · intro hgt
    have hfindA2 :
        (playTemp t1 (playTemp t0 st .sniff 100 none).1 .tracking 50 none).1.timers.find?
            (fun (u : Timer) => u.id == st.nextTimerId)
          = some { id := st.nextTimerId, fireAt := t0 + 100, kind := .tempExpiry none } := by
      rw [htimers2]
      simp [List.find?, hself]
    have hA := fireTimer_tempExpiry_stale cfg env (t0 + 100)
      (playTemp t1 (playTemp t0 st .sniff 100 none).1 .tracking 50 none).1
      st.nextTimerId (t0 + 100) none hfindA2 (Nat.le_refl _) (by rw [hhold2]; exact hgt)
    rw [hA]
    exact ⟨rfl, by simp [clearTimer], by simp [clearTimer]⟩

/-- Witness for claim C2 (amended) at concrete inputs: with A at t=1000
and B at t=1060 (so that the timer of A fires at 1100 while the hold of
B lasts until 1110), the timer of A is indeed a silent no-op; and in the
counterexample timing the timer of B zeroes the hold at t=1060. -/
theorem c2_amended_overlap_witness :
    (fireTimer defaultConfig env0 1100
        (playTemp 1060 (playTemp 1000 overlapBase .sniff 100 none).1 .tracking 50 none).1
        0).2 = []
      ∧ (fireTimer defaultConfig env0 1060
          (playTemp 1010 (playTemp 1000 overlapBase .sniff 100 none).1 .tracking 50 none).1
          1).1.tempHoldUntil = 0 :=
  ⟨((c2_amended_overlap defaultConfig env0 overlapBase 1000 1060 rfl (by decide)
      (by decide)).2 (by decide)).1,
   ((c2_amended_overlap defaultConfig env0 overlapBase 1000 1010 rfl (by decide)
      (by decide)).1 (by decide)).1⟩
